import Mathlib

/-!
Shallow embedding of the Hydra Racing game engine (src/script.js, base
engine v2.0; the extended variant src/unnamed/part_000 differs only by a
Nitro power-up and extra cosmetics).

Numbers: JavaScript floating-point values are modelled as exact rationals
(ℚ); millisecond timestamps (Date.now()) and integer-valued quantities
(score, coins, combo) as ℤ.  Rendering, DOM, audio and the random spawners
are external collaborators and are not part of the simulation state; the
cosmetic-only fields pulse, particles, road markings and stars are omitted
because no game-logic decision reads them.
-/

namespace Hydra

/-! CONFIG constants, src/script.js lines 6-45. -/

def lanesCount : ℤ := 5
def playerWidth : ℚ := 40
def playerHeight : ℚ := 75
def enemyWidth : ℚ := 40
def enemyHeight : ℚ := 75
def coinValue : ℤ := 10
def shieldDuration : ℤ := 5000
def magnetDuration : ℤ := 7000
def slowMoDuration : ℤ := 5000
def doublePointsDuration : ℤ := 10000
def speedIncreaseRate : ℚ := 0.0005
def comboTimeout : ℤ := 2000
def difficultyIncreaseInterval : ℚ := 5000
def roadMarkingSpeed : ℚ := 5

/-- The four power-up types of POWER_UP_TYPES, src/script.js lines 114-119. -/
inductive PowerUpType
  | SHIELD
  | MAGNET
  | SLOW_MO
  | DOUBLE_POINTS
  deriving DecidableEq

/-- An axis-aligned bounding box, the shape checkCollision reads from its
two arguments (x, y, width, height). -/
structure Rect where
  x : ℚ
  y : ℚ
  width : ℚ
  height : ℚ
  deriving DecidableEq

/-- Player object, src/script.js lines 202-212 (color is cosmetic, omitted). -/
structure Player where
  x : ℚ
  y : ℚ
  width : ℚ
  height : ℚ
  lane : ℤ
  deriving DecidableEq

def Player.toRect (p : Player) : Rect := ⟨p.x, p.y, p.width, p.height⟩

/-- Enemy object, src/script.js lines 496-505 (color is cosmetic, omitted). -/
structure Enemy where
  x : ℚ
  y : ℚ
  width : ℚ
  height : ℚ
  lane : ℤ
  speed : ℚ
  passed : Bool
  deriving DecidableEq

def Enemy.toRect (e : Enemy) : Rect := ⟨e.x, e.y, e.width, e.height⟩

/-- Coin object, src/script.js lines 518-525 (the collected field is written
at spawn and never read, omitted). -/
structure Coin where
  x : ℚ
  y : ℚ
  size : ℚ
  lane : ℤ
  rotation : ℚ
  deriving DecidableEq

/-- Power-up object, src/script.js lines 539-547 (pulse is cosmetic and
driven by Math.sin, omitted: no game-logic decision reads it). -/
structure PowerUp where
  x : ℚ
  y : ℚ
  size : ℚ
  lane : ℤ
  type : PowerUpType
  rotation : ℚ
  deriving DecidableEq

/-- The mutable game state: the gameState object (src/script.js lines
48-70), the entity arrays (lines 74-76) and inputState.targetLane
(line 106) merged into one record.  Particles are cosmetic, omitted. -/
structure GameState where
  isPlaying : Bool
  isPaused : Bool
  isGameOver : Bool
  score : ℤ
  topScore : ℤ
  coins : ℤ
  totalCoins : ℤ
  distance : ℚ
  dodgedCars : ℤ
  combo : ℤ
  lastDodgeTime : ℤ
  currentSpeed : ℚ
  difficultyLevel : ℤ
  hasShield : Bool
  hasMagnet : Bool
  hasSlowMo : Bool
  hasDoublePoints : Bool
  activePowerUp : Option PowerUpType
  powerUpEndTime : ℤ
  targetLane : ℤ
  player : Player
  enemies : List Enemy
  coinsArr : List Coin
  powerUpsArr : List PowerUp
  deriving DecidableEq

/-! Utility functions. -/

/-- getLaneX, src/script.js lines 1515-1517.  CONFIG.laneWidth is a mutable
global (set on resize); it is passed here as an explicit argument. -/
def getLaneX (laneWidth : ℚ) (lane : ℤ) : ℚ :=
  lane * laneWidth + (laneWidth - playerWidth) / 2

/-- Truncation toward zero, the rounding JavaScript's % operator applies to
the quotient. -/
def jsTrunc (q : ℚ) : ℤ := if 0 ≤ q then ⌊q⌋ else ⌈q⌉

/-- The JavaScript remainder operator a % b on numbers (fmod semantics:
a - b * trunc(a / b)). -/
def jsMod (a b : ℚ) : ℚ := a - b * jsTrunc (a / b)

/-! Collision predicates, src/script.js lines 746-780. -/

/-- checkCollision, src/script.js lines 746-754.  Note the 10px padding is
applied to the second rectangle only. -/
def checkCollision (a b : Rect) : Bool :=
  decide (a.x < b.x + b.width - 10) &&
  decide (a.x + a.width > b.x + 10) &&
  decide (a.y < b.y + b.height - 10) &&
  decide (a.y + a.height > b.y + 10)

/-- checkCoinCollision, src/script.js lines 756-767: closest-point clamping
of the coin center to the player rectangle, squared distance under the
squared radius. -/
def checkCoinCollision (p : Player) (c : Coin) : Bool :=
  let centerX := c.x + c.size / 2
  let centerY := c.y + c.size / 2
  let closestX := max p.x (min centerX (p.x + p.width))
  let closestY := max p.y (min centerY (p.y + p.height))
  let dx := centerX - closestX
  let dy := centerY - closestY
  decide (dx * dx + dy * dy < (c.size / 2) * (c.size / 2))

/-- checkPowerUpCollision, src/script.js lines 769-780 (identical formula to
checkCoinCollision with the power-up's size). -/
def checkPowerUpCollision (p : Player) (u : PowerUp) : Bool :=
  let centerX := u.x + u.size / 2
  let centerY := u.y + u.size / 2
  let closestX := max p.x (min centerX (p.x + p.width))
  let closestY := max p.y (min centerY (p.y + p.height))
  let dx := centerX - closestX
  let dy := centerY - closestY
  decide (dx * dx + dy * dy < (u.size / 2) * (u.size / 2))

/-! Collection, scoring, power-up state machine. -/

/-- collectCoin, src/script.js lines 786-793 (particles and sound are
external effects, omitted). -/
def collectCoinF (s : GameState) : GameState :=
  let v : ℤ := if s.hasDoublePoints then coinValue * 2 else coinValue
  { s with coins := s.coins + v, score := s.score + v * 10 }

/-- deactivatePowerUp, src/script.js lines 836-844 (DOM indicator omitted). -/
def deactivatePowerUpF (s : GameState) : GameState :=
  { s with hasShield := false, hasMagnet := false, hasSlowMo := false,
           hasDoublePoints := false, activePowerUp := none }

/-- The per-type duration constants used by collectPowerUp's switch. -/
def durationOf : PowerUpType → ℤ
  | .SHIELD => shieldDuration
  | .MAGNET => magnetDuration
  | .SLOW_MO => slowMoDuration
  | .DOUBLE_POINTS => doublePointsDuration

/-- collectPowerUp, src/script.js lines 795-834 (toast, particles and sound
are external effects, omitted).  now is the Date.now() read. -/
def collectPowerUpF (s : GameState) (t : PowerUpType) (now : ℤ) : GameState :=
  let s1 := if s.activePowerUp.isSome then deactivatePowerUpF s else s
  let s2 := { s1 with activePowerUp := some t }
  match t with
  | .SHIELD =>
      { s2 with hasShield := true, powerUpEndTime := now + shieldDuration }
  | .MAGNET =>
      { s2 with hasMagnet := true, powerUpEndTime := now + magnetDuration }
  | .SLOW_MO =>
      { s2 with hasSlowMo := true, powerUpEndTime := now + slowMoDuration }
  | .DOUBLE_POINTS =>
      { s2 with hasDoublePoints := true, powerUpEndTime := now + doublePointsDuration }

/-- handleDodge, src/script.js lines 846-873 (combo display and sound are
external effects, omitted).  now is the Date.now() read. -/
def handleDodgeF (s : GameState) (now : ℤ) : GameState :=
  let combo := if now - s.lastDodgeTime < comboTimeout then s.combo + 1 else 1
  let comboBonus := combo * 50
  let doubleMultiplier : ℤ := if s.hasDoublePoints then 2 else 1
  { s with combo := combo, lastDodgeTime := now,
           score := s.score + comboBonus * doubleMultiplier }

/-- updatePowerUpTimers, src/script.js lines 722-732 (the indicator text is
an external effect, omitted). -/
def updatePowerUpTimersF (s : GameState) (now : ℤ) : GameState :=
  if s.activePowerUp.isSome ∧ now > s.powerUpEndTime then deactivatePowerUpF s else s

/-- updateCombo, src/script.js lines 734-740. -/
def updateComboF (s : GameState) (now : ℤ) : GameState :=
  if s.combo > 0 ∧ now - s.lastDodgeTime > comboTimeout then { s with combo := 0 } else s

/-! Lifecycle commands. -/

/-- gameOver, src/script.js lines 376-416: stops the run, records the top
score and banks the session coins (spawner teardown, DOM, particles,
sound and vibration are external effects, omitted). -/
def gameOverF (s : GameState) : GameState :=
  let newTop := if s.score > s.topScore then s.score else s.topScore
  { s with isPlaying := false, isGameOver := true,
           topScore := newTop, totalCoins := s.totalCoins + s.coins }

/-- moveLeft, src/script.js lines 292-298 (sound omitted). -/
def moveLeftF (s : GameState) : GameState :=
  if !s.isPlaying || s.isPaused then s
  else if s.targetLane > 0 then { s with targetLane := s.targetLane - 1 }
  else s

/-- moveRight, src/script.js lines 300-306 (sound omitted). -/
def moveRightF (s : GameState) : GameState :=
  if !s.isPlaying || s.isPaused then s
  else if s.targetLane < lanesCount - 1 then { s with targetLane := s.targetLane + 1 }
  else s

/-- pauseGame, src/script.js lines 362-367 (overlay and spawner teardown are
external effects, omitted). -/
def pauseGameF (s : GameState) : GameState := { s with isPaused := true }

/-- resumeGame, src/script.js lines 369-374 (overlay and spawner restart are
external effects, omitted). -/
def resumeGameF (s : GameState) : GameState := { s with isPaused := false }

/-- initPlayer, src/script.js lines 202-212: targetLane 2, player placed in
lane 1.  canvasHeight is passed as H. -/
def initPlayerF (laneWidth H : ℚ) (s : GameState) : GameState :=
  { s with targetLane := 2,
           player := { x := getLaneX laneWidth 1, y := H - 150,
                       width := playerWidth, height := playerHeight, lane := 1 } }

/-- restartGame, src/script.js lines 418-455: the synchronous state reset
(the subsequent startGame countdown is asynchronous and external).  Note
lastDodgeTime, powerUpEndTime, topScore and totalCoins are not reset. -/
def restartGameF (laneWidth H : ℚ) (s : GameState) : GameState :=
  initPlayerF laneWidth H
    { s with score := 0, coins := 0, distance := 0, dodgedCars := 0, combo := 0,
             currentSpeed := 1, difficultyLevel := 1, isGameOver := false,
             isPlaying := false, isPaused := false,
             hasShield := false, hasMagnet := false, hasSlowMo := false,
             hasDoublePoints := false, activePowerUp := none,
             enemies := [], coinsArr := [], powerUpsArr := [] }

/-! The per-frame update pass, src/script.js lines 554-603.  The loops over
the entity arrays iterate from the last index down to 0 and splice in
place; they are modelled by structural recursion in which the tail of the
list (the higher indices) is processed first. -/

/-- The per-frame time delta: 0.5 under SlowMo, else 1 (line 557). -/
def deltaSpeedOf (s : GameState) : ℚ := if s.hasSlowMo then 0.5 else 1

/-- One iteration of the updateEnemies loop body, src/script.js lines
628-649, on enemy e with current global state s.  Returns the new state,
the surviving enemy (none if spliced out) and whether the body executed
the early return after gameOver. -/
def enemyStep (ds H : ℚ) (now : ℤ) (s : GameState) (e : Enemy) :
    GameState × Option Enemy × Bool :=
  let e1 := { e with y := e.y + e.speed * s.currentSpeed * ds }
  if !s.hasShield && checkCollision s.player.toRect e1.toRect then
    (gameOverF s, some e1, true)
  else
    let dodged := !e1.passed && decide (e1.y > s.player.y + s.player.height)
    let s2 := if dodged then handleDodgeF { s with dodgedCars := s.dodgedCars + 1 } now else s
    let e2 := if dodged then { e1 with passed := true } else e1
    if e2.y > H + e2.height then (s2, none, false) else (s2, some e2, false)

/-- The updateEnemies loop, src/script.js lines 627-650: last list element
processed first; a detected collision aborts the remaining (earlier)
iterations, leaving those enemies untouched. -/
def updateEnemiesGo (ds H : ℚ) (now : ℤ) (s : GameState) :
    List Enemy → GameState × List Enemy × Bool
  | [] => (s, [], false)
  | e :: rest =>
    match updateEnemiesGo ds H now s rest with
    | (s1, rest1, true) => (s1, e :: rest1, true)
    | (s1, rest1, false) =>
      match enemyStep ds H now s1 e with
      | (s2, some e2, b) => (s2, e2 :: rest1, b)
      | (s2, none, b) => (s2, rest1, b)

/-- updateEnemies, src/script.js lines 627-650. -/
def updateEnemiesF (ds H : ℚ) (now : ℤ) (s : GameState) : GameState :=
  let r := updateEnemiesGo ds H now s s.enemies
  { r.1 with enemies := r.2.1 }

/-- One iteration of the updateCoins loop body, src/script.js lines 655-683.
The source compares sqrt(dx^2 + dy^2) < 150 for the magnet pull; over
nonnegative quantities this is equivalent to dx^2 + dy^2 < 150^2, the form
embedded here. -/
def coinStep (ds H : ℚ) (s : GameState) (c : Coin) : GameState × Option Coin :=
  let c1 := { c with y := c.y + roadMarkingSpeed * s.currentSpeed * ds,
                     rotation := c.rotation + 0.1 }
  let c2 :=
    if s.hasMagnet then
      let dx := s.player.x - c1.x
      let dy := s.player.y - c1.y
      if dx * dx + dy * dy < (150 : ℚ) * 150 then
        { c1 with x := c1.x + dx * 0.1, y := c1.y + dy * 0.1 }
      else c1
    else c1
  if checkCoinCollision s.player c2 then (collectCoinF s, none)
  else if c2.y > H + c2.size then (s, none)
  else (s, some c2)

/-- The updateCoins loop, src/script.js lines 652-684 (last element first). -/
def updateCoinsGo (ds H : ℚ) (s : GameState) : List Coin → GameState × List Coin
  | [] => (s, [])
  | c :: rest =>
    let r := updateCoinsGo ds H s rest
    match coinStep ds H r.1 c with
    | (s2, some c2) => (s2, c2 :: r.2)
    | (s2, none) => (s2, r.2)

/-- updateCoins, src/script.js lines 652-684. -/
def updateCoinsF (ds H : ℚ) (s : GameState) : GameState :=
  let r := updateCoinsGo ds H s s.coinsArr
  { r.1 with coinsArr := r.2 }

/-- One iteration of the updatePowerUps loop body, src/script.js lines
687-704 (pulse is cosmetic, omitted). -/
def powerUpStep (ds H : ℚ) (now : ℤ) (s : GameState) (u : PowerUp) :
    GameState × Option PowerUp :=
  let u1 := { u with y := u.y + roadMarkingSpeed * s.currentSpeed * ds,
                     rotation := u.rotation + 0.02 }
  if checkPowerUpCollision s.player u1 then (collectPowerUpF s u1.type now, none)
  else if u1.y > H + u1.size then (s, none)
  else (s, some u1)

/-- The updatePowerUps loop, src/script.js lines 686-705 (last element
first). -/
def updatePowerUpsGo (ds H : ℚ) (now : ℤ) (s : GameState) :
    List PowerUp → GameState × List PowerUp
  | [] => (s, [])
  | u :: rest =>
    let r := updatePowerUpsGo ds H now s rest
    match powerUpStep ds H now r.1 u with
    | (s2, some u2) => (s2, u2 :: r.2)
    | (s2, none) => (s2, r.2)

/-- updatePowerUps, src/script.js lines 686-705. -/
def updatePowerUpsF (ds H : ℚ) (now : ℤ) (s : GameState) : GameState :=
  let r := updatePowerUpsGo ds H now s s.powerUpsArr
  { r.1 with powerUpsArr := r.2 }

/-- The opening phase of update, src/script.js lines 557-572: speed and
distance advancement, the difficulty recomputation behind its
distance % interval < 10 trigger guard, and the eased player x. -/
def advancePhase (laneWidth : ℚ) (s : GameState) : GameState :=
  let cs := s.currentSpeed + speedIncreaseRate
  let dist := s.distance + cs * deltaSpeedOf s
  let s1 := { s with currentSpeed := cs, distance := dist }
  let s2 :=
    if jsMod s1.distance difficultyIncreaseInterval < 10 then
      { s1 with difficultyLevel := ⌊s1.distance / difficultyIncreaseInterval⌋ + 1 }
    else s1
  let targetX := getLaneX laneWidth s2.targetLane
  let dx := targetX - s2.player.x
  { s2 with player := { s2.player with x := s2.player.x + dx * 0.15, lane := s2.targetLane } }

/-- The body of update past its isPlaying/isPaused guard, src/script.js
lines 557-602: advance, enemies, coins, power-ups, timers, combo, then
the per-frame score increment — in source order.  Note the early return
inside updateEnemies exits only that function: the coin, power-up, timer
and combo phases and the per-frame score increment of this same call
still run after gameOver. -/
def updateCore (laneWidth H : ℚ) (now : ℤ) (s : GameState) : GameState :=
  let ds := deltaSpeedOf s
  let s3 := advancePhase laneWidth s
  let s4 := updateEnemiesF ds H now s3
  let s5 := updateCoinsF ds H s4
  let s6 := updatePowerUpsF ds H now s5
  let s7 := updatePowerUpTimersF s6 now
  let s8 := updateComboF s7 now
  { s8 with score := s8.score + ⌊s8.currentSpeed * ds⌋ }

/-- update, src/script.js lines 554-603: the whole per-frame pass (road
markings, stars and particles are cosmetic, omitted; updateUI is an
external sink). -/
def update (laneWidth H : ℚ) (now : ℤ) (s : GameState) : GameState :=
  if !s.isPlaying || s.isPaused then s
  else updateCore laneWidth H now s

/-! Discrete input actions as a sequence, for the lane-clamp claim. -/

/-- A lane-shift input: the two discrete actions the input layer exposes. -/
inductive Move
  | left
  | right
  deriving DecidableEq

def applyMove (s : GameState) : Move → GameState
  | .left => moveLeftF s
  | .right => moveRightF s

def applyMoves (s : GameState) : List Move → GameState
  | [] => s
  | m :: ms => applyMoves (applyMove s m) ms

/-! Spec-side definitions (written from the spec's words, to be compared
with the source-derived predicates above). -/

/-- A rectangle shrunk inward by p on all four sides. -/
def shrinkRect (r : Rect) (p : ℚ) : Rect :=
  ⟨r.x + p, r.y + p, r.width - 2 * p, r.height - 2 * p⟩

/-- Plain open-interval overlap of two axis-aligned rectangles. -/
def rectOverlap (a b : Rect) : Bool :=
  decide (a.x < b.x + b.width) && decide (b.x < a.x + a.width) &&
  decide (a.y < b.y + b.height) && decide (b.y < a.y + a.height)

/-- The spec's reading of the enemy collision test: both rectangles shrunk
inward by the 10px padding on all four sides, then overlap. -/
def specPaddedCollision (a b : Rect) : Bool :=
  rectOverlap (shrinkRect a 10) (shrinkRect b 10)

/-- The spec's coin-pickup quantity: squared distance from the point
(cx, cy) to the closest point of the player rectangle (closest-point
clamping). -/
def specSqDistToPlayer (p : Player) (cx cy : ℚ) : ℚ :=
  let closestX := max p.x (min cx (p.x + p.width))
  let closestY := max p.y (min cy (p.y + p.height))
  (cx - closestX) * (cx - closestX) + (cy - closestY) * (cy - closestY)

/-! Power-up flag bookkeeping for the exclusivity claim. -/

/-- The boolean flag belonging to a power-up type. -/
def flagOf (s : GameState) : PowerUpType → Bool
  | .SHIELD => s.hasShield
  | .MAGNET => s.hasMagnet
  | .SLOW_MO => s.hasSlowMo
  | .DOUBLE_POINTS => s.hasDoublePoints

/-- Every set flag belongs to the recorded active power-up (so in
particular at most one flag is set and none is set while idle). -/
def exclusiveInv (s : GameState) : Prop :=
  ∀ T, flagOf s T = true → s.activePowerUp = some T

/-- At most one power-up type is active. -/
def atMostOneActive (s : GameState) : Prop :=
  ∀ T U, flagOf s T = true → flagOf s U = true → T = U

/-! Phase-stability bundles: which gameState fields a given phase of the
update pass leaves untouched (plus score monotonicity where score can
only grow). -/

/-- Fields untouched by the updateCoins phase, and score monotonicity
(coin collection only adds). -/
structure CoinPhaseStable (s t : GameState) : Prop where
  isPlaying : t.isPlaying = s.isPlaying
  isGameOver : t.isGameOver = s.isGameOver
  currentSpeed : t.currentSpeed = s.currentSpeed
  distance : t.distance = s.distance
  difficultyLevel : t.difficultyLevel = s.difficultyLevel
  hasShield : t.hasShield = s.hasShield
  hasMagnet : t.hasMagnet = s.hasMagnet
  hasSlowMo : t.hasSlowMo = s.hasSlowMo
  hasDoublePoints : t.hasDoublePoints = s.hasDoublePoints
  activePowerUp : t.activePowerUp = s.activePowerUp
  player : t.player = s.player
  score_le : s.score ≤ t.score

/-- Fields untouched by the updatePowerUps, updatePowerUpTimers and
updateCombo phases (which may rewrite the power-up flags and combo), and
score monotonicity. -/
structure TailPhaseStable (s t : GameState) : Prop where
  isPlaying : t.isPlaying = s.isPlaying
  isGameOver : t.isGameOver = s.isGameOver
  currentSpeed : t.currentSpeed = s.currentSpeed
  distance : t.distance = s.distance
  difficultyLevel : t.difficultyLevel = s.difficultyLevel
  player : t.player = s.player
  score_le : s.score ≤ t.score

/-- Fields untouched by the updateEnemies phase (which may end the run and
score dodges, but never touches speed, distance, difficulty, the power-up
flags or the player). -/
structure EnemyPhaseStable (s t : GameState) : Prop where
  currentSpeed : t.currentSpeed = s.currentSpeed
  distance : t.distance = s.distance
  difficultyLevel : t.difficultyLevel = s.difficultyLevel
  hasShield : t.hasShield = s.hasShield
  hasMagnet : t.hasMagnet = s.hasMagnet
  hasSlowMo : t.hasSlowMo = s.hasSlowMo
  hasDoublePoints : t.hasDoublePoints = s.hasDoublePoints
  activePowerUp : t.activePowerUp = s.activePowerUp
  player : t.player = s.player

/-! Concrete fixture states for counterexamples and witnesses. -/

/-- A canvas 500 wide (laneWidth 100) and 600 tall. -/
def lw0 : ℚ := 100
def H0 : ℚ := 600

/-- A playing state with one enemy overlapping the player (after this
frame's advancement) and nothing else in flight. -/
def s0c : GameState :=
  { isPlaying := true, isPaused := false, isGameOver := false,
    score := 0, topScore := 0, coins := 0, totalCoins := 0,
    distance := 0, dodgedCars := 0, combo := 0, lastDodgeTime := 0,
    currentSpeed := 2, difficultyLevel := 1,
    hasShield := false, hasMagnet := false, hasSlowMo := false,
    hasDoublePoints := false, activePowerUp := none, powerUpEndTime := 0,
    targetLane := 1,
    player := { x := 130, y := 450, width := 40, height := 75, lane := 1 },
    enemies := [{ x := 130, y := 400, width := 40, height := 75, lane := 1,
                  speed := 4, passed := false }],
    coinsArr := [], powerUpsArr := [] }

/-- A playing state with a correct difficulty level, distance just below
the 5000 threshold, and a large currentSpeed that overshoots the
distance % interval < 10 trigger window in one tick. -/
def s6c : GameState :=
  { isPlaying := true, isPaused := false, isGameOver := false,
    score := 0, topScore := 0, coins := 0, totalCoins := 0,
    distance := 4995, dodgedCars := 0, combo := 0, lastDodgeTime := 0,
    currentSpeed := 20, difficultyLevel := 1,
    hasShield := false, hasMagnet := false, hasSlowMo := false,
    hasDoublePoints := false, activePowerUp := none, powerUpEndTime := 0,
    targetLane := 1,
    player := { x := 130, y := 450, width := 40, height := 75, lane := 1 },
    enemies := [], coinsArr := [], powerUpsArr := [] }

/-- A mid-run state with a correct difficulty level and a small speed, for
the amended difficulty invariant. -/
def s6w : GameState :=
  { s6c with distance := 100, currentSpeed := 1 }

/-- A state with an active Shield whose effect expires at time 1000. -/
def s3c : GameState :=
  { s6c with hasShield := true, activePowerUp := some .SHIELD, powerUpEndTime := 1000 }

/-- Two identical-footprint rectangles offset by 25 on the x axis. -/
def rectA : Rect := ⟨0, 0, 40, 75⟩
def rectB : Rect := ⟨25, 0, 40, 75⟩

/-- A fresh-run scoring state for the combo witness. -/
def s5w : GameState := { s6c with distance := 0, currentSpeed := 1, score := 1000 }

/-! ### Claim C10 -/

/-- Claim C10: the lane-to-x mapping preserves lane order: for every
positive laneWidth and lane indices a < b, getLaneX a < getLaneX b, so
entities in distinct lanes get distinct, ordered x-coordinates. -/
theorem C10_laneX_mono (laneWidth : ℚ) (a b : ℤ) (hw : 0 < laneWidth)
    (hab : a < b) : getLaneX laneWidth a < getLaneX laneWidth b := by
  unfold getLaneX
  have hq : (a : ℚ) < (b : ℚ) := by exact_mod_cast hab
  have := mul_lt_mul_of_pos_right hq hw
  linarith

/-- Witness for C10 at laneWidth 100, lanes 0 and 1. -/
theorem C10_laneX_mono_witness :
    (0 : ℚ) < 100 ∧ (0 : ℤ) < 1 ∧ getLaneX 100 0 < getLaneX 100 1 :=
  ⟨by norm_num, by norm_num, C10_laneX_mono 100 0 1 (by norm_num) (by norm_num)⟩

/-! ### Claim C4 -/

/-- Counterexample for C4 as stated: two 40x75 boxes offset by 25 on x.
checkCollision reports a collision, but with both rectangles shrunk
inward by 10 on all four sides the shrunk boxes ([10,30] vs [35,55] on x)
do not overlap, so the claimed if-and-only-if characterisation fails. -/
theorem C4_counterexample :
    checkCollision rectA rectB = true ∧ specPaddedCollision rectA rectB = false := by
  constructor
  · norm_num [checkCollision, rectA, rectB]
  · norm_num [specPaddedCollision, rectOverlap, shrinkRect, rectA, rectB]

/-- Claim C4 (amended): checkCollision a b holds iff rectangle a overlaps
rectangle b shrunk inward by 10 on all four sides (the 10px padding is
applied once per comparison, not to both rectangles); in particular two
entities with identical bounding boxes wider and taller than 20px always
report collision, and entities separated by at least 10px on every axis
never report collision. -/
theorem C4_collision_padding (a b : Rect) :
    (checkCollision a b = true ↔ rectOverlap a (shrinkRect b 10) = true) ∧
    (a = b → 20 < a.width → 20 < a.height → checkCollision a b = true) ∧
    ((b.x ≥ a.x + a.width + 10 ∨ a.x ≥ b.x + b.width + 10) →
     (b.y ≥ a.y + a.height + 10 ∨ a.y ≥ b.y + b.height + 10) →
     checkCollision a b = false) := by
  refine ⟨?_, ?_, ?_⟩
  · simp only [checkCollision, rectOverlap, shrinkRect, Bool.and_eq_true,
      decide_eq_true_eq]
    constructor
    · rintro ⟨⟨⟨h1, h2⟩, h3⟩, h4⟩
      exact ⟨⟨⟨by linarith, by linarith⟩, by linarith⟩, by linarith⟩
    · rintro ⟨⟨⟨h1, h2⟩, h3⟩, h4⟩
      exact ⟨⟨⟨by linarith, by linarith⟩, by linarith⟩, by linarith⟩
  · rintro rfl hw hh
    simp only [checkCollision, Bool.and_eq_true, decide_eq_true_eq]
    exact ⟨⟨⟨by linarith, by linarith⟩, by linarith⟩, by linarith⟩
  · intro hx hy
    rw [Bool.eq_false_iff]
    intro hcol
    simp only [checkCollision, Bool.and_eq_true, decide_eq_true_eq] at hcol
    obtain ⟨⟨⟨h1, h2⟩, h3⟩, h4⟩ := hcol
    rcases hx with h | h <;> linarith

/-- Witness for C4 (amended) at concrete rectangles: the padded-overlap
characterisation at rectA/rectB, the identical-box case, and a pair
separated by more than 10 on both axes. -/
theorem C4_collision_padding_witness :
    (checkCollision rectA rectB = true ↔
      rectOverlap rectA (shrinkRect rectB 10) = true) ∧
    checkCollision rectA rectA = true ∧
    checkCollision rectA ⟨100, 200, 40, 75⟩ = false := by
  refine ⟨(C4_collision_padding rectA rectB).1, ?_, ?_⟩
  · exact (C4_collision_padding rectA rectA).2.1 rfl
      (by norm_num [rectA]) (by norm_num [rectA])
  · exact (C4_collision_padding rectA ⟨100, 200, 40, 75⟩).2.2
      (by norm_num [rectA]) (by norm_num [rectA])

/-! ### Claim C3 -/

/-- Counterexample for C3 as stated: with Shield active and expiry 1000,
re-collecting a Shield at time 2000 moves the expiry to 2000 + 5000 =
7000, so the expiry does not stay at its old value. -/
theorem C3_counterexample :
    s3c.activePowerUp = some .SHIELD ∧ s3c.powerUpEndTime = 1000 ∧
    (collectPowerUpF s3c .SHIELD 2000).powerUpEndTime = 7000 ∧
    (collectPowerUpF s3c .SHIELD 2000).powerUpEndTime ≠ s3c.powerUpEndTime := by
  refine ⟨rfl, rfl, ?_, ?_⟩ <;>
    simp [collectPowerUpF, deactivatePowerUpF, s3c, s6c, shieldDuration]

/-- Claim C3 (amended): collecting a power-up of the same type T as the
currently active one re-arms the effect with a fresh expiry now +
duration(T), replacing the previous expiry E (the duration is reset on
same-type re-pickup, not left unchanged). -/
theorem C3_repickup_resets_expiry (s : GameState) (T : PowerUpType) (now : ℤ)
    (hT : s.activePowerUp = some T) :
    (collectPowerUpF s T now).powerUpEndTime = now + durationOf T ∧
    (collectPowerUpF s T now).activePowerUp = some T := by
  cases T <;>
    simp [collectPowerUpF, deactivatePowerUpF, durationOf, hT]

/-- Witness for C3 (amended): re-collecting the active Shield at time 2000. -/
theorem C3_repickup_resets_expiry_witness :
    s3c.activePowerUp = some .SHIELD ∧
    (collectPowerUpF s3c .SHIELD 2000).powerUpEndTime = 2000 + durationOf .SHIELD ∧
    (collectPowerUpF s3c .SHIELD 2000).activePowerUp = some .SHIELD := by
  have h := C3_repickup_resets_expiry s3c .SHIELD 2000 rfl
  exact ⟨rfl, h.1, h.2⟩

/-! ### Claim C7 -/

/-- Claim C7: circle-vs-rectangle pickup detection: the predicate is the
squared distance from the coin center to the closest point of the player
rectangle being strictly under (size/2)^2; a coin centered on the
player's bounding-box center is always collected, and a coin whose center
lies radius + epsilon beyond the nearest player edge is never collected. -/
theorem C7_coin_pickup (p : Player) (c : Coin) (ε : ℚ)
    (hw : 0 ≤ p.width) (hh : 0 ≤ p.height) (hs : 0 < c.size) (hε : 0 < ε) :
    (checkCoinCollision p c = true ↔
      specSqDistToPlayer p (c.x + c.size / 2) (c.y + c.size / 2) <
        (c.size / 2) * (c.size / 2)) ∧
    ((c.x + c.size / 2 = p.x + p.width / 2 ∧
      c.y + c.size / 2 = p.y + p.height / 2) →
      checkCoinCollision p c = true) ∧
    ((c.x + c.size / 2 ≥ p.x + p.width + (c.size / 2 + ε) ∨
      c.x + c.size / 2 ≤ p.x - (c.size / 2 + ε) ∨
      c.y + c.size / 2 ≥ p.y + p.height + (c.size / 2 + ε) ∨
      c.y + c.size / 2 ≤ p.y - (c.size / 2 + ε)) →
      checkCoinCollision p c = false) := by
  have hr : (0 : ℚ) < c.size / 2 := by linarith
  have hv : (0 : ℚ) < c.size / 2 + ε := by linarith
  refine ⟨?_, ?_, ?_⟩
  · simp [checkCoinCollision, specSqDistToPlayer]
  · rintro ⟨hx, hy⟩
    simp only [checkCoinCollision, decide_eq_true_eq]
    rw [hx, hy, min_eq_left (by linarith), max_eq_right (by linarith),
      min_eq_left (by linarith), max_eq_right (by linarith)]
    have : p.x + p.width / 2 - (p.x + p.width / 2) = 0 := by ring
    rw [this]
    have : p.y + p.height / 2 - (p.y + p.height / 2) = 0 := by ring
    rw [this]
    nlinarith [hr]
  · intro hcase
    rw [Bool.eq_false_iff]
    intro hcol
    simp only [checkCoinCollision, decide_eq_true_eq] at hcol
    have hrr : (c.size / 2) * (c.size / 2) <
        (c.size / 2 + ε) * (c.size / 2 + ε) := by nlinarith
    rcases hcase with h | h | h | h
    · rw [min_eq_right (by linarith), max_eq_right (by linarith)] at hcol
      have hd : c.size / 2 + ε ≤ c.x + c.size / 2 - (p.x + p.width) := by linarith
      have hsq := mul_le_mul hd hd (le_of_lt hv) (by linarith)
      nlinarith [hsq, mul_self_nonneg
        (c.y + c.size / 2 - max p.y (min (c.y + c.size / 2) (p.y + p.height)))]
    · rw [min_eq_left (by linarith), max_eq_left (by linarith)] at hcol
      have hd : c.size / 2 + ε ≤ p.x - (c.x + c.size / 2) := by linarith
      have hsq := mul_le_mul hd hd (le_of_lt hv) (by linarith)
      nlinarith [hsq, mul_self_nonneg
        (c.y + c.size / 2 - max p.y (min (c.y + c.size / 2) (p.y + p.height)))]
    · rw [min_eq_right (a := c.y + c.size / 2) (b := p.y + p.height) (by linarith),
        max_eq_right (a := p.y) (b := p.y + p.height) (by linarith)] at hcol
      have hd : c.size / 2 + ε ≤ c.y + c.size / 2 - (p.y + p.height) := by linarith
      have hsq := mul_le_mul hd hd (le_of_lt hv) (by linarith)
      nlinarith [hsq, mul_self_nonneg
        (c.x + c.size / 2 - max p.x (min (c.x + c.size / 2) (p.x + p.width)))]
    · rw [min_eq_left (a := c.y + c.size / 2) (b := p.y + p.height) (by linarith),
        max_eq_left (a := p.y) (b := c.y + c.size / 2) (by linarith)] at hcol
      have hd : c.size / 2 + ε ≤ p.y - (c.y + c.size / 2) := by linarith
      have hsq := mul_le_mul hd hd (le_of_lt hv) (by linarith)
      nlinarith [hsq, mul_self_nonneg
        (c.x + c.size / 2 - max p.x (min (c.x + c.size / 2) (p.x + p.width)))]

/-- Witness for C7: a 30px coin centered on the player and a coin
radius + 1 to the right of the player's right edge. -/
theorem C7_coin_pickup_witness :
    checkCoinCollision { x := 130, y := 450, width := 40, height := 75, lane := 1 }
      { x := 135, y := 472.5, size := 30, lane := 1, rotation := 0 } = true ∧
    checkCoinCollision { x := 130, y := 450, width := 40, height := 75, lane := 1 }
      { x := 171, y := 472.5, size := 30, lane := 1, rotation := 0 } = false := by
  constructor
  · exact (C7_coin_pickup
      { x := 130, y := 450, width := 40, height := 75, lane := 1 }
      { x := 135, y := 472.5, size := 30, lane := 1, rotation := 0 } 1
      (by norm_num) (by norm_num) (by norm_num) (by norm_num)).2.1
      (by norm_num)
  · exact (C7_coin_pickup
      { x := 130, y := 450, width := 40, height := 75, lane := 1 }
      { x := 171, y := 472.5, size := 30, lane := 1, rotation := 0 } 1
      (by norm_num) (by norm_num) (by norm_num) (by norm_num)).2.2
      (Or.inl (by norm_num))

/-! ### Claim C8 -/

/-- One lane-shift input keeps the target lane in [0, lanesCount - 1]. -/
theorem applyMove_lane_range (s : GameState) (m : Move)
    (h0 : 0 ≤ s.targetLane) (h1 : s.targetLane ≤ lanesCount - 1) :
    0 ≤ (applyMove s m).targetLane ∧ (applyMove s m).targetLane ≤ lanesCount - 1 := by
  cases m with
  | left =>
    simp only [applyMove, moveLeftF]
    split_ifs with hg hc
    · exact ⟨h0, h1⟩
    · refine ⟨?_, ?_⟩
      · show 0 ≤ s.targetLane - 1
        omega
      · show s.targetLane - 1 ≤ lanesCount - 1
        omega
    · exact ⟨h0, h1⟩
  | right =>
    simp only [applyMove, moveRightF, lanesCount] at *
    split_ifs with hg hc
    · exact ⟨h0, h1⟩
    · refine ⟨?_, ?_⟩
      · show 0 ≤ s.targetLane + 1
        omega
      · show s.targetLane + 1 ≤ 5 - 1
        omega
    · exact ⟨h0, h1⟩

/-- Claim C8: for every sequence of lane-shift inputs starting from a
target lane within [0, lanesCount - 1], the target lane stays within
[0, lanesCount - 1]; and whenever the game is not playing or is paused,
each single lane-shift action leaves the whole state unchanged. -/
theorem C8_lane_clamp (s : GameState) (ms : List Move)
    (h0 : 0 ≤ s.targetLane) (h1 : s.targetLane ≤ lanesCount - 1) :
    (0 ≤ (applyMoves s ms).targetLane ∧
      (applyMoves s ms).targetLane ≤ lanesCount - 1) ∧
    (s.isPlaying = false ∨ s.isPaused = true →
      moveLeftF s = s ∧ moveRightF s = s) := by
  constructor
  · induction ms generalizing s with
    | nil => exact ⟨h0, h1⟩
    | cons m ms ih =>
        have h := applyMove_lane_range s m h0 h1
        exact ih (applyMove s m) h.1 h.2
  · rintro (h | h) <;> rw [moveLeftF, moveRightF] <;> simp [h]

/-- Witness for C8: three left shifts from lane 1 remain in range, and the
actions are no-ops in a non-playing state. -/
theorem C8_lane_clamp_witness :
    ((0 : ℤ) ≤ s6c.targetLane ∧ s6c.targetLane ≤ lanesCount - 1) ∧
    (0 ≤ (applyMoves s6c [.left, .left, .left]).targetLane ∧
      (applyMoves s6c [.left, .left, .left]).targetLane ≤ lanesCount - 1) ∧
    (moveLeftF (pauseGameF s6c) = pauseGameF s6c ∧
      moveRightF (pauseGameF s6c) = pauseGameF s6c) := by
  refine ⟨⟨by norm_num [s6c], by norm_num [s6c, lanesCount]⟩, ?_, ?_⟩
  · exact (C8_lane_clamp s6c [.left, .left, .left]
      (by norm_num [s6c]) (by norm_num [s6c, lanesCount])).1
  · exact (C8_lane_clamp (pauseGameF s6c) []
      (by norm_num [pauseGameF, s6c]) (by norm_num [pauseGameF, s6c, lanesCount])).2
      (Or.inr rfl)

/-! ### Claim C5 -/

/-- A dodge inside the combo window: combo increments and the bonus is the
new combo times 50, doubled under DoublePoints. -/
theorem handleDodgeF_hit (s : GameState) (now : ℤ)
    (h : now - s.lastDodgeTime < comboTimeout) :
    (handleDodgeF s now).combo = s.combo + 1 ∧
    (handleDodgeF s now).lastDodgeTime = now ∧
    (handleDodgeF s now).score =
      s.score + (s.combo + 1) * 50 * (if s.hasDoublePoints then 2 else 1) ∧
    (handleDodgeF s now).hasDoublePoints = s.hasDoublePoints := by
  simp [handleDodgeF, if_pos h]

/-- A dodge outside the combo window: combo resets to 1 and the bonus is
50, doubled under DoublePoints. -/
theorem handleDodgeF_miss (s : GameState) (now : ℤ)
    (h : ¬ now - s.lastDodgeTime < comboTimeout) :
    (handleDodgeF s now).combo = 1 ∧
    (handleDodgeF s now).lastDodgeTime = now ∧
    (handleDodgeF s now).score =
      s.score + 50 * (if s.hasDoublePoints then 2 else 1) ∧
    (handleDodgeF s now).hasDoublePoints = s.hasDoublePoints := by
  simp [handleDodgeF, if_neg h]

/-- Claim C5: from combo 0, three dodges with each gap strictly under
2000ms bring the combo to 3 and award 50+100+150 = 300 points in total
(doubled throughout under DoublePoints); a fourth dodge after a 2001ms
gap resets the combo to 1 and awards 50 points (again doubled under
DoublePoints). -/
theorem C5_combo_scoring (s : GameState) (t1 t2 t3 t4 : ℤ)
    (hc : s.combo = 0)
    (h12 : 0 ≤ t2 - t1) (h12w : t2 - t1 < comboTimeout)
    (h23 : 0 ≤ t3 - t2) (h23w : t3 - t2 < comboTimeout)
    (h34 : t4 - t3 = 2001) :
    (handleDodgeF (handleDodgeF (handleDodgeF s t1) t2) t3).combo = 3 ∧
    (handleDodgeF (handleDodgeF (handleDodgeF s t1) t2) t3).score =
      s.score + 300 * (if s.hasDoublePoints then 2 else 1) ∧
    (handleDodgeF (handleDodgeF (handleDodgeF (handleDodgeF s t1) t2) t3) t4).combo = 1 ∧
    (handleDodgeF (handleDodgeF (handleDodgeF (handleDodgeF s t1) t2) t3) t4).score =
      (handleDodgeF (handleDodgeF (handleDodgeF s t1) t2) t3).score +
        50 * (if s.hasDoublePoints then 2 else 1) := by
  have e1 : (handleDodgeF s t1).combo = 1 ∧ (handleDodgeF s t1).lastDodgeTime = t1 ∧
      (handleDodgeF s t1).score = s.score + 50 * (if s.hasDoublePoints then 2 else 1) ∧
      (handleDodgeF s t1).hasDoublePoints = s.hasDoublePoints := by
    by_cases hA : t1 - s.lastDodgeTime < comboTimeout
    · have h := handleDodgeF_hit s t1 hA
      rw [hc] at h
      simpa using h
    · exact handleDodgeF_miss s t1 hA
  obtain ⟨e1c, e1l, e1s, e1d⟩ := e1
  have h2 : t2 - (handleDodgeF s t1).lastDodgeTime < comboTimeout := by
    rw [e1l]; exact h12w
  obtain ⟨e2c, e2l, e2s, e2d⟩ := handleDodgeF_hit (handleDodgeF s t1) t2 h2
  rw [e1c] at e2c
  rw [e1c, e1d, e1s] at e2s
  rw [e1d] at e2d
  have h3 : t3 - (handleDodgeF (handleDodgeF s t1) t2).lastDodgeTime < comboTimeout := by
    rw [e2l]; exact h23w
  obtain ⟨e3c, e3l, e3s, e3d⟩ := handleDodgeF_hit (handleDodgeF (handleDodgeF s t1) t2) t3 h3
  rw [e2c] at e3c
  rw [e2c, e2d, e2s] at e3s
  rw [e2d] at e3d
  have h4 : ¬ t4 - (handleDodgeF (handleDodgeF (handleDodgeF s t1) t2) t3).lastDodgeTime <
      comboTimeout := by
    rw [e3l, h34]
    simp [comboTimeout]
  obtain ⟨e4c, e4l, e4s, e4d⟩ :=
    handleDodgeF_miss (handleDodgeF (handleDodgeF (handleDodgeF s t1) t2) t3) t4 h4
  rw [e3d] at e4s
  refine ⟨by omega, ?_, e4c, e4s⟩
  rw [e3s]
  split_ifs <;> ring

/-- Witness for C5: a fresh run dodging at 10000, 10500, 11000 and 13001ms
without DoublePoints. -/
theorem C5_combo_scoring_witness :
    s5w.combo = 0 ∧
    (handleDodgeF (handleDodgeF (handleDodgeF s5w 10000) 10500) 11000).combo = 3 ∧
    (handleDodgeF (handleDodgeF (handleDodgeF s5w 10000) 10500) 11000).score =
      s5w.score + 300 * (if s5w.hasDoublePoints then 2 else 1) ∧
    (handleDodgeF (handleDodgeF (handleDodgeF (handleDodgeF s5w 10000) 10500) 11000)
      13001).combo = 1 := by
  have h := C5_combo_scoring s5w 10000 10500 11000 13001 rfl
    (by norm_num) (by norm_num [comboTimeout]) (by norm_num)
    (by norm_num [comboTimeout]) (by norm_num)
  exact ⟨rfl, h.1, h.2.1, h.2.2.1⟩

/-! ### Phase-stability lemmas shared by several claims -/

theorem coinStableRefl (s : GameState) : CoinPhaseStable s s :=
  ⟨rfl, rfl, rfl, rfl, rfl, rfl, rfl, rfl, rfl, rfl, rfl, le_refl _⟩

theorem tailStableRefl (s : GameState) : TailPhaseStable s s :=
  ⟨rfl, rfl, rfl, rfl, rfl, rfl, le_refl _⟩

theorem enemyStableRefl (s : GameState) : EnemyPhaseStable s s :=
  ⟨rfl, rfl, rfl, rfl, rfl, rfl, rfl, rfl, rfl⟩

theorem coinStableTrans {s t u : GameState}
    (h1 : CoinPhaseStable s t) (h2 : CoinPhaseStable t u) : CoinPhaseStable s u :=
  ⟨h2.isPlaying.trans h1.isPlaying, h2.isGameOver.trans h1.isGameOver,
   h2.currentSpeed.trans h1.currentSpeed, h2.distance.trans h1.distance,
   h2.difficultyLevel.trans h1.difficultyLevel, h2.hasShield.trans h1.hasShield,
   h2.hasMagnet.trans h1.hasMagnet, h2.hasSlowMo.trans h1.hasSlowMo,
   h2.hasDoublePoints.trans h1.hasDoublePoints,
   h2.activePowerUp.trans h1.activePowerUp, h2.player.trans h1.player,
   le_trans h1.score_le h2.score_le⟩

theorem tailStableTrans {s t u : GameState}
    (h1 : TailPhaseStable s t) (h2 : TailPhaseStable t u) : TailPhaseStable s u :=
  ⟨h2.isPlaying.trans h1.isPlaying, h2.isGameOver.trans h1.isGameOver,
   h2.currentSpeed.trans h1.currentSpeed, h2.distance.trans h1.distance,
   h2.difficultyLevel.trans h1.difficultyLevel, h2.player.trans h1.player,
   le_trans h1.score_le h2.score_le⟩

theorem enemyStableTrans {s t u : GameState}
    (h1 : EnemyPhaseStable s t) (h2 : EnemyPhaseStable t u) : EnemyPhaseStable s u :=
  ⟨h2.currentSpeed.trans h1.currentSpeed, h2.distance.trans h1.distance,
   h2.difficultyLevel.trans h1.difficultyLevel, h2.hasShield.trans h1.hasShield,
   h2.hasMagnet.trans h1.hasMagnet, h2.hasSlowMo.trans h1.hasSlowMo,
   h2.hasDoublePoints.trans h1.hasDoublePoints,
   h2.activePowerUp.trans h1.activePowerUp, h2.player.trans h1.player⟩

theorem coinStableToTail {s t : GameState} (h : CoinPhaseStable s t) :
    TailPhaseStable s t :=
  ⟨h.isPlaying, h.isGameOver, h.currentSpeed, h.distance, h.difficultyLevel,
   h.player, h.score_le⟩

/-- collectCoin only adds to the wallet and score. -/
theorem collectCoinF_stable (s : GameState) : CoinPhaseStable s (collectCoinF s) := by
  constructor <;> simp [collectCoinF, coinValue] <;> split_ifs <;> omega

/-- collectPowerUp only rewrites the power-up flags, the active type and
the expiry. -/
theorem collectPowerUpF_stable (s : GameState) (t : PowerUpType) (now : ℤ) :
    TailPhaseStable s (collectPowerUpF s t now) := by
  cases t <;> unfold collectPowerUpF <;> split_ifs <;>
    constructor <;> simp [deactivatePowerUpF]

theorem deactivatePowerUpF_stable (s : GameState) :
    TailPhaseStable s (deactivatePowerUpF s) := by
  constructor <;> simp [deactivatePowerUpF]

theorem gameOverF_enemyStable (s : GameState) : EnemyPhaseStable s (gameOverF s) := by
  constructor <;> simp [gameOverF]

theorem handleDodgeF_enemyStable (s : GameState) (now : ℤ) :
    EnemyPhaseStable s (handleDodgeF s now) := by
  constructor <;> simp [handleDodgeF]

/-- The possible state outcomes of one updateEnemies loop iteration. -/
theorem enemyStep_fst (ds H : ℚ) (now : ℤ) (s : GameState) (e : Enemy) :
    (enemyStep ds H now s e).1 = gameOverF s ∨
    (enemyStep ds H now s e).1 =
      handleDodgeF { s with dodgedCars := s.dodgedCars + 1 } now ∨
    (enemyStep ds H now s e).1 = s := by
  simp only [enemyStep]
  split_ifs <;> simp

/-- The possible state outcomes of one updateCoins loop iteration. -/
theorem coinStep_fst (ds H : ℚ) (s : GameState) (c : Coin) :
    (coinStep ds H s c).1 = collectCoinF s ∨ (coinStep ds H s c).1 = s := by
  simp only [coinStep]
  split_ifs <;> simp

/-- The possible state outcomes of one updatePowerUps loop iteration. -/
theorem powerUpStep_fst (ds H : ℚ) (now : ℤ) (s : GameState) (u : PowerUp) :
    (∃ t, (powerUpStep ds H now s u).1 = collectPowerUpF s t now) ∨
    (powerUpStep ds H now s u).1 = s := by
  simp only [powerUpStep]
  split_ifs with h1 h2
  · exact Or.inl ⟨_, rfl⟩
  · exact Or.inr rfl
  · exact Or.inr rfl

theorem enemyStep_enemyStable (ds H : ℚ) (now : ℤ) (s : GameState) (e : Enemy) :
    EnemyPhaseStable s (enemyStep ds H now s e).1 := by
  rcases enemyStep_fst ds H now s e with h | h | h <;> rw [h]
  · exact gameOverF_enemyStable s
  · exact enemyStableTrans (s := s) (by constructor <;> simp)
      (handleDodgeF_enemyStable _ now)
  · exact enemyStableRefl s

theorem updateEnemiesGo_stable (ds H : ℚ) (now : ℤ) (s : GameState)
    (l : List Enemy) : EnemyPhaseStable s (updateEnemiesGo ds H now s l).1 := by
  induction l with
  | nil => exact enemyStableRefl s
  | cons e rest ih =>
    simp only [updateEnemiesGo]
    rcases hgo : updateEnemiesGo ds H now s rest with ⟨s1, rest1, b⟩
    rw [hgo] at ih
    dsimp only at ih
    cases b
    · dsimp only
      have hst := enemyStep_enemyStable ds H now s1 e
      rcases he : enemyStep ds H now s1 e with ⟨s2, oe, b2⟩
      rw [he] at hst
      dsimp only at hst
      cases oe <;> dsimp only <;> exact enemyStableTrans ih hst
    · dsimp only
      exact ih

theorem updateEnemiesF_stable (ds H : ℚ) (now : ℤ) (s : GameState) :
    EnemyPhaseStable s (updateEnemiesF ds H now s) := by
  have h := updateEnemiesGo_stable ds H now s s.enemies
  unfold updateEnemiesF
  exact enemyStableTrans h (by constructor <;> simp)

theorem coinStep_stable (ds H : ℚ) (s : GameState) (c : Coin) :
    CoinPhaseStable s (coinStep ds H s c).1 := by
  rcases coinStep_fst ds H s c with h | h <;> rw [h]
  · exact collectCoinF_stable s
  · exact coinStableRefl s

theorem updateCoinsGo_stable (ds H : ℚ) (s : GameState) (l : List Coin) :
    CoinPhaseStable s (updateCoinsGo ds H s l).1 := by
  induction l with
  | nil => exact coinStableRefl s
  | cons c rest ih =>
    simp only [updateCoinsGo]
    have hst := coinStep_stable ds H (updateCoinsGo ds H s rest).1 c
    rcases hc : coinStep ds H (updateCoinsGo ds H s rest).1 c with ⟨s2, oc⟩
    rw [hc] at hst
    cases oc <;> exact coinStableTrans ih hst

theorem updateCoinsF_stable (ds H : ℚ) (s : GameState) :
    CoinPhaseStable s (updateCoinsF ds H s) := by
  have h := updateCoinsGo_stable ds H s s.coinsArr
  unfold updateCoinsF
  exact coinStableTrans h (by constructor <;> simp)

theorem powerUpStep_stable (ds H : ℚ) (now : ℤ) (s : GameState) (u : PowerUp) :
    TailPhaseStable s (powerUpStep ds H now s u).1 := by
  rcases powerUpStep_fst ds H now s u with ⟨t, h⟩ | h <;> rw [h]
  · exact collectPowerUpF_stable s t now
  · exact tailStableRefl s

theorem updatePowerUpsGo_stable (ds H : ℚ) (now : ℤ) (s : GameState)
    (l : List PowerUp) : TailPhaseStable s (updatePowerUpsGo ds H now s l).1 := by
  induction l with
  | nil => exact tailStableRefl s
  | cons u rest ih =>
    simp only [updatePowerUpsGo]
    have hst := powerUpStep_stable ds H now (updatePowerUpsGo ds H now s rest).1 u
    rcases hu : powerUpStep ds H now (updatePowerUpsGo ds H now s rest).1 u with ⟨s2, ou⟩
    rw [hu] at hst
    cases ou <;> exact tailStableTrans ih hst

theorem updatePowerUpsF_stable (ds H : ℚ) (now : ℤ) (s : GameState) :
    TailPhaseStable s (updatePowerUpsF ds H now s) := by
  have h := updatePowerUpsGo_stable ds H now s s.powerUpsArr
  unfold updatePowerUpsF
  exact tailStableTrans h (by constructor <;> simp)

theorem updatePowerUpTimersF_stable (s : GameState) (now : ℤ) :
    TailPhaseStable s (updatePowerUpTimersF s now) := by
  unfold updatePowerUpTimersF
  split_ifs
  · exact deactivatePowerUpF_stable s
  · exact tailStableRefl s

theorem updateComboF_stable (s : GameState) (now : ℤ) :
    TailPhaseStable s (updateComboF s now) := by
  unfold updateComboF
  split_ifs
  · constructor <;> simp
  · exact tailStableRefl s

/-- The whole tail of the update pass after updateEnemies (coins,
power-ups, timers, combo) preserves the run-over flag, speed, distance,
difficulty and the player, and can only increase the score. -/
theorem updateTail_stable (ds H : ℚ) (now : ℤ) (s : GameState) :
    TailPhaseStable s
      (updateComboF (updatePowerUpTimersF
        (updatePowerUpsF ds H now (updateCoinsF ds H s)) now) now) :=
  tailStableTrans
    (tailStableTrans (coinStableToTail (updateCoinsF_stable ds H s))
      (updatePowerUpsF_stable ds H now (updateCoinsF ds H s)))
    (tailStableTrans
      (updatePowerUpTimersF_stable (updatePowerUpsF ds H now (updateCoinsF ds H s)) now)
      (updateComboF_stable (updatePowerUpTimersF
        (updatePowerUpsF ds H now (updateCoinsF ds H s)) now) now))

/-! ### Power-up flag bookkeeping and claim C2 -/

theorem flagOf_deactivate (s : GameState) (T : PowerUpType) :
    flagOf (deactivatePowerUpF s) T = false := by
  cases T <;> simp [flagOf, deactivatePowerUpF]

theorem activePowerUp_collectPowerUpF (s : GameState) (t : PowerUpType) (now : ℤ) :
    (collectPowerUpF s t now).activePowerUp = some t := by
  cases t <;> unfold collectPowerUpF <;> split_ifs <;> rfl

/-- When some power-up was active, collecting type t first clears every
flag, so afterwards exactly t's flag is set. -/
theorem flagOf_collect_of_isSome (s : GameState) (t : PowerUpType) (now : ℤ)
    (h : s.activePowerUp.isSome = true) (T : PowerUpType) :
    flagOf (collectPowerUpF s t now) T = true ↔ T = t := by
  cases t <;> cases T <;>
    simp [collectPowerUpF, h, deactivatePowerUpF, flagOf]

/-- When no power-up was active and every flag is clear, collecting type t
sets exactly t's flag. -/
theorem flagOf_collect_of_none (s : GameState) (t : PowerUpType) (now : ℤ)
    (ho : s.activePowerUp = none)
    (hS : s.hasShield = false) (hM : s.hasMagnet = false)
    (hL : s.hasSlowMo = false) (hD : s.hasDoublePoints = false) (T : PowerUpType) :
    flagOf (collectPowerUpF s t now) T = true ↔ T = t := by
  cases t <;> cases T <;>
    simp [collectPowerUpF, ho, flagOf, hS, hM, hL, hD]

theorem exclusiveInv_collectPowerUpF (s : GameState) (t : PowerUpType) (now : ℤ)
    (h : exclusiveInv s) : exclusiveInv (collectPowerUpF s t now) := by
  intro T hT
  rw [activePowerUp_collectPowerUpF]
  rcases ho : s.activePowerUp with _ | A
  · have hS : s.hasShield = false := by
      cases hb : s.hasShield
      · rfl
      · exact absurd (h .SHIELD hb) (by rw [ho]; simp)
    have hM : s.hasMagnet = false := by
      cases hb : s.hasMagnet
      · rfl
      · exact absurd (h .MAGNET hb) (by rw [ho]; simp)
    have hL : s.hasSlowMo = false := by
      cases hb : s.hasSlowMo
      · rfl
      · exact absurd (h .SLOW_MO hb) (by rw [ho]; simp)
    have hD : s.hasDoublePoints = false := by
      cases hb : s.hasDoublePoints
      · rfl
      · exact absurd (h .DOUBLE_POINTS hb) (by rw [ho]; simp)
    rw [(flagOf_collect_of_none s t now ho hS hM hL hD T).mp hT]
  · have hsome : s.activePowerUp.isSome = true := by rw [ho]; rfl
    rw [(flagOf_collect_of_isSome s t now hsome T).mp hT]

theorem exclusiveInv_deactivatePowerUpF (s : GameState) :
    exclusiveInv (deactivatePowerUpF s) := by
  intro T hT
  rw [flagOf_deactivate] at hT
  exact absurd hT (by simp)

/-- exclusiveInv only depends on the four flags and the active type. -/
theorem exclusiveInv_of_eqFields (s t : GameState)
    (h1 : t.hasShield = s.hasShield) (h2 : t.hasMagnet = s.hasMagnet)
    (h3 : t.hasSlowMo = s.hasSlowMo) (h4 : t.hasDoublePoints = s.hasDoublePoints)
    (h5 : t.activePowerUp = s.activePowerUp)
    (h : exclusiveInv s) : exclusiveInv t := by
  intro T hT
  rw [h5]
  apply h
  cases T <;> simp only [flagOf] at hT ⊢
  · rwa [h1] at hT
  · rwa [h2] at hT
  · rwa [h3] at hT
  · rwa [h4] at hT

theorem exclusiveInv_of_enemyStable {s t : GameState}
    (hst : EnemyPhaseStable s t) (h : exclusiveInv s) : exclusiveInv t :=
  exclusiveInv_of_eqFields s t hst.hasShield hst.hasMagnet hst.hasSlowMo
    hst.hasDoublePoints hst.activePowerUp h

theorem exclusiveInv_of_coinStable {s t : GameState}
    (hst : CoinPhaseStable s t) (h : exclusiveInv s) : exclusiveInv t :=
  exclusiveInv_of_eqFields s t hst.hasShield hst.hasMagnet hst.hasSlowMo
    hst.hasDoublePoints hst.activePowerUp h

theorem exclusiveInv_updatePowerUpsGo (ds H : ℚ) (now : ℤ) (s : GameState)
    (l : List PowerUp) (h : exclusiveInv s) :
    exclusiveInv (updatePowerUpsGo ds H now s l).1 := by
  induction l with
  | nil => exact h
  | cons u rest ih =>
    simp only [updatePowerUpsGo]
    have hstep := powerUpStep_fst ds H now (updatePowerUpsGo ds H now s rest).1 u
    rcases hu : powerUpStep ds H now (updatePowerUpsGo ds H now s rest).1 u with ⟨s2, ou⟩
    rw [hu] at hstep
    dsimp only at hstep
    rcases hstep with ⟨t, ht⟩ | ht <;> cases ou <;> dsimp only <;> rw [ht] <;>
      first
        | exact exclusiveInv_collectPowerUpF _ _ now ih
        | exact ih

theorem exclusiveInv_updatePowerUpTimersF (s : GameState) (now : ℤ)
    (h : exclusiveInv s) : exclusiveInv (updatePowerUpTimersF s now) := by
  unfold updatePowerUpTimersF
  split_ifs
  · exact exclusiveInv_deactivatePowerUpF s
  · exact h

theorem exclusiveInv_updateComboF (s : GameState) (now : ℤ)
    (h : exclusiveInv s) : exclusiveInv (updateComboF s now) := by
  unfold updateComboF
  split_ifs
  · exact exclusiveInv_of_eqFields s _ rfl rfl rfl rfl rfl h
  · exact h

/-- The advance phase never touches the power-up flags or active type, the
run-over flag or the score; it adds the speed increment and the per-frame
distance increment. -/
theorem advancePhase_fields (lw : ℚ) (s : GameState) :
    (advancePhase lw s).hasShield = s.hasShield ∧
    (advancePhase lw s).hasMagnet = s.hasMagnet ∧
    (advancePhase lw s).hasSlowMo = s.hasSlowMo ∧
    (advancePhase lw s).hasDoublePoints = s.hasDoublePoints ∧
    (advancePhase lw s).activePowerUp = s.activePowerUp ∧
    (advancePhase lw s).isGameOver = s.isGameOver ∧
    (advancePhase lw s).score = s.score ∧
    (advancePhase lw s).currentSpeed = s.currentSpeed + speedIncreaseRate ∧
    (advancePhase lw s).distance =
      s.distance + (s.currentSpeed + speedIncreaseRate) * deltaSpeedOf s := by
  simp only [advancePhase]
  split_ifs <;> simp

/-- exclusiveInv is preserved across a whole update tick. -/
theorem exclusiveInv_update (lw H : ℚ) (now : ℤ) (s : GameState)
    (h : exclusiveInv s) : exclusiveInv (update lw H now s) := by
  unfold update updateCore
  split_ifs with hg
  · exact h
  · have hA : exclusiveInv (advancePhase lw s) := by
      obtain ⟨f1, f2, f3, f4, f5, _⟩ := advancePhase_fields lw s
      exact exclusiveInv_of_eqFields s _ f1 f2 f3 f4 f5 h
    have hE : exclusiveInv
        (updateEnemiesF (deltaSpeedOf s) H now (advancePhase lw s)) :=
      exclusiveInv_of_enemyStable
        (updateEnemiesF_stable (deltaSpeedOf s) H now (advancePhase lw s)) hA
    have hC : exclusiveInv (updateCoinsF (deltaSpeedOf s) H
        (updateEnemiesF (deltaSpeedOf s) H now (advancePhase lw s))) :=
      exclusiveInv_of_coinStable (updateCoinsF_stable (deltaSpeedOf s) H _) hE
    have hP : exclusiveInv (updatePowerUpsF (deltaSpeedOf s) H now
        (updateCoinsF (deltaSpeedOf s) H
          (updateEnemiesF (deltaSpeedOf s) H now (advancePhase lw s)))) := by
      unfold updatePowerUpsF
      exact exclusiveInv_of_eqFields _ _ rfl rfl rfl rfl rfl
        (exclusiveInv_updatePowerUpsGo (deltaSpeedOf s) H now _ _ hC)
    have hT : exclusiveInv (updatePowerUpTimersF (updatePowerUpsF (deltaSpeedOf s) H now
        (updateCoinsF (deltaSpeedOf s) H
          (updateEnemiesF (deltaSpeedOf s) H now (advancePhase lw s)))) now) :=
      exclusiveInv_updatePowerUpTimersF _ now hP
    have hB : exclusiveInv (updateComboF (updatePowerUpTimersF
        (updatePowerUpsF (deltaSpeedOf s) H now
          (updateCoinsF (deltaSpeedOf s) H
            (updateEnemiesF (deltaSpeedOf s) H now (advancePhase lw s)))) now) now) :=
      exclusiveInv_updateComboF _ now hT
    exact exclusiveInv_of_eqFields _ _ rfl rfl rfl rfl rfl hB

/-- Claim C2: power-up activation is exclusive.  With any power-up A
active, collecting type B leaves exactly B's flag true and all other
flags false, records activePowerUp = B, and the resulting state has at
most one power-up active; moreover the exclusivity invariant (every set
flag matches the recorded active power-up) is preserved by every update
tick, so at most one power-up type is ever active. -/
theorem C2_powerup_exclusive (s : GameState) (A B : PowerUpType) (now : ℤ)
    (hA : s.activePowerUp = some A) :
    (∀ T, flagOf (collectPowerUpF s B now) T = true ↔ T = B) ∧
    (collectPowerUpF s B now).activePowerUp = some B ∧
    atMostOneActive (collectPowerUpF s B now) ∧
    (∀ (t : GameState) (lw H : ℚ) (n : ℤ),
      exclusiveInv t → exclusiveInv (update lw H n t)) := by
  have hsome : s.activePowerUp.isSome = true := by rw [hA]; rfl
  have hflags := flagOf_collect_of_isSome s B now hsome
  refine ⟨hflags, activePowerUp_collectPowerUpF s B now, ?_, ?_⟩
  · intro T U hT hU
    rw [(hflags T).mp hT, (hflags U).mp hU]
  · intro t lw H n ht
    exact exclusiveInv_update lw H n t ht

/-- Witness for C2: with a Shield active, collecting a Magnet leaves
exactly the magnet flag set and records the magnet as active. -/
theorem C2_powerup_exclusive_witness :
    s3c.activePowerUp = some .SHIELD ∧
    flagOf (collectPowerUpF s3c .MAGNET 5000) .MAGNET = true ∧
    flagOf (collectPowerUpF s3c .MAGNET 5000) .SHIELD = false ∧
    (collectPowerUpF s3c .MAGNET 5000).activePowerUp = some .MAGNET := by
  have h := C2_powerup_exclusive s3c .SHIELD .MAGNET 5000 rfl
  refine ⟨rfl, (h.1 .MAGNET).mpr rfl, ?_, h.2.1⟩
  cases hb : flagOf (collectPowerUpF s3c .MAGNET 5000) .SHIELD
  · rfl
  · exact absurd ((h.1 .SHIELD).mp hb) (by decide)

/-! ### Facts about a full update tick, shared by C1, C6 and C9 -/

/-- Projections of a full update-pass body: speed, distance and difficulty
are fixed by the advance phase; the run-over flag is fixed by the enemy
phase; and the score after the pass is at least the score right after the
enemy phase plus the per-frame increment. -/
theorem updateCore_facts (lw H : ℚ) (now : ℤ) (s : GameState) :
    (updateCore lw H now s).difficultyLevel = (advancePhase lw s).difficultyLevel ∧
    (updateCore lw H now s).distance = (advancePhase lw s).distance ∧
    (updateCore lw H now s).currentSpeed = (advancePhase lw s).currentSpeed ∧
    (updateCore lw H now s).isGameOver =
      (updateEnemiesF (deltaSpeedOf s) H now (advancePhase lw s)).isGameOver ∧
    (updateEnemiesF (deltaSpeedOf s) H now (advancePhase lw s)).score +
        ⌊(updateEnemiesF (deltaSpeedOf s) H now (advancePhase lw s)).currentSpeed *
          deltaSpeedOf s⌋ ≤
      (updateCore lw H now s).score := by
  have hE := updateEnemiesF_stable (deltaSpeedOf s) H now (advancePhase lw s)
  have hT := updateTail_stable (deltaSpeedOf s) H now
    (updateEnemiesF (deltaSpeedOf s) H now (advancePhase lw s))
  unfold updateCore
  refine ⟨?_, ?_, ?_, ?_, ?_⟩
  · show (updateComboF (updatePowerUpTimersF (updatePowerUpsF (deltaSpeedOf s) H now
        (updateCoinsF (deltaSpeedOf s) H (updateEnemiesF (deltaSpeedOf s) H now
          (advancePhase lw s)))) now) now).difficultyLevel = _
    rw [hT.difficultyLevel, hE.difficultyLevel]
  · show (updateComboF (updatePowerUpTimersF (updatePowerUpsF (deltaSpeedOf s) H now
        (updateCoinsF (deltaSpeedOf s) H (updateEnemiesF (deltaSpeedOf s) H now
          (advancePhase lw s)))) now) now).distance = _
    rw [hT.distance, hE.distance]
  · show (updateComboF (updatePowerUpTimersF (updatePowerUpsF (deltaSpeedOf s) H now
        (updateCoinsF (deltaSpeedOf s) H (updateEnemiesF (deltaSpeedOf s) H now
          (advancePhase lw s)))) now) now).currentSpeed = _
    rw [hT.currentSpeed, hE.currentSpeed]
  · show (updateComboF (updatePowerUpTimersF (updatePowerUpsF (deltaSpeedOf s) H now
        (updateCoinsF (deltaSpeedOf s) H (updateEnemiesF (deltaSpeedOf s) H now
          (advancePhase lw s)))) now) now).isGameOver = _
    rw [hT.isGameOver]
  · show _ ≤ (updateComboF (updatePowerUpTimersF (updatePowerUpsF (deltaSpeedOf s) H now
        (updateCoinsF (deltaSpeedOf s) H (updateEnemiesF (deltaSpeedOf s) H now
          (advancePhase lw s)))) now) now).score +
      ⌊(updateComboF (updatePowerUpTimersF (updatePowerUpsF (deltaSpeedOf s) H now
        (updateCoinsF (deltaSpeedOf s) H (updateEnemiesF (deltaSpeedOf s) H now
          (advancePhase lw s)))) now) now).currentSpeed * deltaSpeedOf s⌋
    rw [hT.currentSpeed]
    exact add_le_add hT.score_le (le_refl _)

/-- The guard of update: a playing, unpaused state takes the full pass. -/
theorem update_playing (lw H : ℚ) (now : ℤ) (s : GameState)
    (hp : s.isPlaying = true) (hq : s.isPaused = false) :
    update lw H now s = updateCore lw H now s := by
  simp [update, hp, hq]

/-! ### Claim C9 -/

/-- Claim C9: currentSpeed never decreases across any modelled operation of
a run — update ticks only add speedIncreaseRate, and collections, dodges,
power-up changes, combo/timer polling, pause/resume, lane shifts and game
over leave it unchanged; the only operation that lowers it is restart,
which sets it back to 1. -/
theorem C9_speed_monotone (lw H : ℚ) (now : ℤ) (s : GameState) (t : PowerUpType) :
    s.currentSpeed ≤ (update lw H now s).currentSpeed ∧
    (collectCoinF s).currentSpeed = s.currentSpeed ∧
    (collectPowerUpF s t now).currentSpeed = s.currentSpeed ∧
    (deactivatePowerUpF s).currentSpeed = s.currentSpeed ∧
    (handleDodgeF s now).currentSpeed = s.currentSpeed ∧
    (updateComboF s now).currentSpeed = s.currentSpeed ∧
    (updatePowerUpTimersF s now).currentSpeed = s.currentSpeed ∧
    (pauseGameF s).currentSpeed = s.currentSpeed ∧
    (resumeGameF s).currentSpeed = s.currentSpeed ∧
    (gameOverF s).currentSpeed = s.currentSpeed ∧
    (moveLeftF s).currentSpeed = s.currentSpeed ∧
    (moveRightF s).currentSpeed = s.currentSpeed ∧
    (restartGameF lw H s).currentSpeed = 1 := by
  refine ⟨?_, ?_, ?_, ?_, ?_, ?_, ?_, ?_, ?_, ?_, ?_, ?_, ?_⟩
  · unfold update
    split_ifs
    · exact le_refl _
    · rw [(updateCore_facts lw H now s).2.2.1,
        (advancePhase_fields lw s).2.2.2.2.2.2.2.1]
      have : (0 : ℚ) ≤ speedIncreaseRate := by norm_num [speedIncreaseRate]
      linarith
  · simp [collectCoinF]
  · exact (collectPowerUpF_stable s t now).currentSpeed
  · simp [deactivatePowerUpF]
  · simp [handleDodgeF]
  · exact (updateComboF_stable s now).currentSpeed
  · exact (updatePowerUpTimersF_stable s now).currentSpeed
  · simp [pauseGameF]
  · simp [resumeGameF]
  · simp [gameOverF]
  · unfold moveLeftF
    split_ifs <;> simp
  · unfold moveRightF
    split_ifs <;> simp
  · simp [restartGameF, initPlayerF]

/-! ### Claim C6 -/

theorem deltaSpeedOf_pos (s : GameState) : 0 < deltaSpeedOf s := by
  unfold deltaSpeedOf
  split_ifs <;> norm_num

/-- When a nonnegative increment below 10 is added to a nonnegative
distance and the distance % interval < 10 trigger does not fire, the
distance did not cross a multiple of the interval, so its floor quotient
is unchanged. -/
theorem difficulty_floor_stable (d c : ℚ) (hd : 0 ≤ d) (hc : 0 ≤ c) (hlt : c < 10)
    (hmod : ¬ jsMod (d + c) difficultyIncreaseInterval < 10) :
    ⌊(d + c) / difficultyIncreaseInterval⌋ = ⌊d / difficultyIncreaseInterval⌋ := by
  have hpos : (0 : ℚ) < difficultyIncreaseInterval := by
    norm_num [difficultyIncreaseInterval]
  have hq : 0 ≤ (d + c) / difficultyIncreaseInterval :=
    div_nonneg (by linarith) (le_of_lt hpos)
  simp only [jsMod, jsTrunc, if_pos hq] at hmod
  push_neg at hmod
  have hmono : ⌊d / difficultyIncreaseInterval⌋ ≤
      ⌊(d + c) / difficultyIncreaseInterval⌋ :=
    Int.floor_le_floor ((div_le_div_right hpos).mpr (by linarith))
  refine le_antisymm ?_ hmono
  by_contra hgt
  push_neg at hgt
  have h1 : d / difficultyIncreaseInterval <
      ⌊d / difficultyIncreaseInterval⌋ + 1 := Int.lt_floor_add_one _
  have h3 : (⌊d / difficultyIncreaseInterval⌋ : ℚ) + 1 ≤
      (⌊(d + c) / difficultyIncreaseInterval⌋ : ℚ) := by exact_mod_cast hgt
  have h2 : (⌊(d + c) / difficultyIncreaseInterval⌋ : ℚ) ≤
      (d + c) / difficultyIncreaseInterval := Int.floor_le _
  have h4 : d < difficultyIncreaseInterval *
      ((⌊d / difficultyIncreaseInterval⌋ : ℚ) + 1) := by
    rw [mul_comm]
    exact (div_lt_iff hpos).mp h1
  have h5 : difficultyIncreaseInterval * ((⌊d / difficultyIncreaseInterval⌋ : ℚ) + 1) ≤
      difficultyIncreaseInterval * (⌊(d + c) / difficultyIncreaseInterval⌋ : ℚ) :=
    mul_le_mul_of_nonneg_left h3 (le_of_lt hpos)
  have h6 : difficultyIncreaseInterval *
      (⌊(d + c) / difficultyIncreaseInterval⌋ : ℚ) ≤ d + c - 10 := by linarith
  linarith

/-- The advance phase keeps the difficulty invariant whenever the per-tick
distance increment stays below the 10-unit trigger window. -/
theorem advancePhase_difficulty (lw : ℚ) (s : GameState)
    (hd : 0 ≤ s.distance) (hcs : 0 ≤ s.currentSpeed)
    (hinc : (s.currentSpeed + speedIncreaseRate) * deltaSpeedOf s < 10)
    (hinv : s.difficultyLevel = ⌊s.distance / difficultyIncreaseInterval⌋ + 1) :
    (advancePhase lw s).difficultyLevel =
      ⌊(advancePhase lw s).distance / difficultyIncreaseInterval⌋ + 1 := by
  have hc : 0 ≤ (s.currentSpeed + speedIncreaseRate) * deltaSpeedOf s :=
    mul_nonneg (add_nonneg hcs (by norm_num [speedIncreaseRate]))
      (le_of_lt (deltaSpeedOf_pos s))
  simp only [advancePhase]
  split_ifs with htrig
  · simp
  · show s.difficultyLevel =
      ⌊(s.distance + (s.currentSpeed + speedIncreaseRate) * deltaSpeedOf s) /
        difficultyIncreaseInterval⌋ + 1
    rw [difficulty_floor_stable s.distance
      ((s.currentSpeed + speedIncreaseRate) * deltaSpeedOf s) hd hc hinc htrig]
    exact hinv

/-- Claim C6 (amended): provided the tick's distance increment
(currentSpeed + speedIncreaseRate) * deltaSpeed stays below 10 (true for
any realistic speed, and in particular in the start scenario with
currentSpeed 1), an update tick preserves the invariant difficultyLevel =
floor(distance / difficultyIncreaseInterval) + 1 — so once distance
crosses 5000 the level becomes 2.  Without that bound the trigger window
distance % interval < 10 can be overshot and the level goes stale. -/
theorem C6_difficulty_level (lw H : ℚ) (now : ℤ) (s : GameState)
    (hp : s.isPlaying = true) (hq : s.isPaused = false)
    (hd : 0 ≤ s.distance) (hcs : 0 ≤ s.currentSpeed)
    (hinc : (s.currentSpeed + speedIncreaseRate) * deltaSpeedOf s < 10)
    (hinv : s.difficultyLevel = ⌊s.distance / difficultyIncreaseInterval⌋ + 1) :
    (update lw H now s).difficultyLevel =
      ⌊(update lw H now s).distance / difficultyIncreaseInterval⌋ + 1 := by
  rw [update_playing lw H now s hp hq]
  obtain ⟨hdl, hdist, -⟩ := updateCore_facts lw H now s
  rw [hdl, hdist]
  exact advancePhase_difficulty lw s hd hcs hinc hinv

/-- Counterexample for C6 as stated: from the reachable-shaped state s6c
(difficulty level consistent, distance 4995, currentSpeed 20) one tick
moves distance to 5015.0005, overshooting the distance % 5000 < 10
trigger window, so difficultyLevel stays 1 while
floor(distance / 5000) + 1 = 2. -/
theorem C6_counterexample :
    s6c.difficultyLevel = ⌊s6c.distance / difficultyIncreaseInterval⌋ + 1 ∧
    (update lw0 H0 10000 s6c).difficultyLevel = 1 ∧
    ⌊(update lw0 H0 10000 s6c).distance / difficultyIncreaseInterval⌋ + 1 = 2 := by
  refine ⟨by norm_num [s6c, difficultyIncreaseInterval], ?_, ?_⟩ <;>
    norm_num [update, updateCore, advancePhase, deltaSpeedOf, updateEnemiesF,
      updateEnemiesGo, updateCoinsF, updateCoinsGo, updatePowerUpsF,
      updatePowerUpsGo, updatePowerUpTimersF, updateComboF, jsMod, jsTrunc,
      getLaneX, s6c, lw0, H0, speedIncreaseRate, difficultyIncreaseInterval,
      playerWidth, comboTimeout]

/-- Witness for C6 (amended) at the mid-run state s6w (distance 100,
currentSpeed 1). -/
theorem C6_difficulty_level_witness :
    (0 : ℚ) ≤ s6w.distance ∧ (0 : ℚ) ≤ s6w.currentSpeed ∧
    (s6w.currentSpeed + speedIncreaseRate) * deltaSpeedOf s6w < 10 ∧
    s6w.difficultyLevel = ⌊s6w.distance / difficultyIncreaseInterval⌋ + 1 ∧
    (update lw0 H0 10000 s6w).difficultyLevel =
      ⌊(update lw0 H0 10000 s6w).distance / difficultyIncreaseInterval⌋ + 1 := by
  refine ⟨by norm_num [s6w, s6c], by norm_num [s6w, s6c], ?_, ?_, ?_⟩
  · norm_num [s6w, s6c, deltaSpeedOf, speedIncreaseRate]
  · norm_num [s6w, s6c, difficultyIncreaseInterval]
  · exact C6_difficulty_level lw0 H0 10000 s6w rfl rfl
      (by norm_num [s6w, s6c]) (by norm_num [s6w, s6c])
      (by norm_num [s6w, s6c, deltaSpeedOf, speedIncreaseRate])
      (by norm_num [s6w, s6c, difficultyIncreaseInterval])

/-! ### Claim C1 -/

/-- Claim C1 (amended): when an unshielded enemy-player collision is
detected during a frame, updateEnemies stops at the colliding enemy (the
remaining enemies are not advanced) and the state becomes game over — but
the rest of the same update call still runs: the coin, power-up, timer
and combo phases execute and the per-frame score increment is still
added, so the final score is at least the score at the moment of game
over plus floor(currentSpeed * deltaSpeed). -/
theorem C1_game_over_frame (lw H : ℚ) (now : ℤ) (s : GameState)
    (hp : s.isPlaying = true) (hq : s.isPaused = false)
    (hGO : (updateEnemiesF (deltaSpeedOf s) H now (advancePhase lw s)).isGameOver
      = true) :
    (update lw H now s).isGameOver = true ∧
    (updateEnemiesF (deltaSpeedOf s) H now (advancePhase lw s)).score +
        ⌊(updateEnemiesF (deltaSpeedOf s) H now (advancePhase lw s)).currentSpeed *
          deltaSpeedOf s⌋ ≤
      (update lw H now s).score := by
  rw [update_playing lw H now s hp hq]
  obtain ⟨-, -, -, hgo, hsc⟩ := updateCore_facts lw H now s
  refine ⟨?_, hsc⟩
  rw [hgo]
  exact hGO

/-- Counterexample for C1 as stated: in state s0c the single enemy collides
(unshielded), the enemy phase ends the run with score still 0, yet the
same update call finishes with score 2 — the per-frame score increment
(and the later phases) still executed after gameOver. -/
theorem C1_counterexample :
    (updateEnemiesF (deltaSpeedOf s0c) H0 10000 (advancePhase lw0 s0c)).isGameOver
      = true ∧
    (updateEnemiesF (deltaSpeedOf s0c) H0 10000 (advancePhase lw0 s0c)).score = 0 ∧
    (update lw0 H0 10000 s0c).isGameOver = true ∧
    (update lw0 H0 10000 s0c).score = 2 := by
  refine ⟨?_, ?_, ?_, ?_⟩ <;>
    norm_num [update, updateCore, advancePhase, deltaSpeedOf, updateEnemiesF,
      updateEnemiesGo, enemyStep, gameOverF, checkCollision, Player.toRect,
      Enemy.toRect, handleDodgeF, updateCoinsF, updateCoinsGo, updatePowerUpsF,
      updatePowerUpsGo, updatePowerUpTimersF, updateComboF, jsMod, jsTrunc,
      getLaneX, s0c, lw0, H0, speedIncreaseRate, difficultyIncreaseInterval,
      playerWidth, comboTimeout]

/-- Witness for C1 (amended) at the colliding state s0c. -/
theorem C1_game_over_frame_witness :
    (update lw0 H0 10000 s0c).isGameOver = true ∧
    (updateEnemiesF (deltaSpeedOf s0c) H0 10000 (advancePhase lw0 s0c)).score +
        ⌊(updateEnemiesF (deltaSpeedOf s0c) H0 10000
            (advancePhase lw0 s0c)).currentSpeed * deltaSpeedOf s0c⌋ ≤
      (update lw0 H0 10000 s0c).score :=
  C1_game_over_frame lw0 H0 10000 s0c rfl rfl
    (by norm_num [updateEnemiesF, updateEnemiesGo, enemyStep, gameOverF,
      checkCollision, Player.toRect, Enemy.toRect, handleDodgeF, advancePhase,
      deltaSpeedOf, jsMod, jsTrunc, getLaneX, s0c, lw0, H0, speedIncreaseRate,
      difficultyIncreaseInterval, playerWidth, comboTimeout])

end Hydra
